import Mathlib

/-!
Formal model of the abvius-backend contact relay (server.js, two variants).

The file embeds the request validation, the transport-fallback policy of the
POST /contact handler, and the GET /health handler as pure Lean functions.
The repository holds two near-duplicate server variants: the first uses only
nodemailer SMTP configurations (and calls the nonexistent export
nodemailer.createTransporter), the second tries the Resend API first, then
three SMTP configurations, then Resend once more as a fallback.

External send operations (the Resend API client and nodemailer SMTP sends)
are modelled by an oracle (World) giving the outcome of each possible
attempt; a handler returns the HTTP response together with the ordered
trace of the send invocations it performed.
-/

/-- Outcome of one external send invocation: success, or failure with the
reported error message (a thrown error or the 15 second timeout). -/
inductive Outcome
  | ok
  | err (msg : String)
deriving DecidableEq, Repr

/-- Boolean success test on an Outcome. -/
def Outcome.isOk : Outcome → Bool
  | .ok => true
  | .err _ => false

/-- Process environment variables read by server.js. -/
structure Env where
  resendKey : Option String
  emailUser : Option String
  emailPass : Option String
deriving DecidableEq, Repr

/-- Inbound JSON body of POST /contact: each field may be absent (none) or a
string (possibly empty). -/
structure ReqBody where
  name : Option String
  email : Option String
  phone : Option String
  businessType : Option String
  message : Option String
deriving DecidableEq, Repr

/-- JavaScript falsiness of an optional string field: absent (undefined) or
the empty string. This models the check in the guard
if (!name || !email || !phone || !businessType || !message). -/
def falsy : Option String → Bool
  | none => true
  | some s => s.isEmpty

/-- A validated submission: the five fields, all non-empty strings. -/
structure Submission where
  name : String
  email : String
  phone : String
  businessType : String
  message : String
deriving DecidableEq, Repr

/-- Field extraction and the falsiness guard of the handler: none when any of
the five fields is missing or empty, otherwise the submission. -/
def validate (r : ReqBody) : Option Submission :=
  if falsy r.name || falsy r.email || falsy r.phone || falsy r.businessType ||
      falsy r.message then
    none
  else
    some { name := r.name.getD "", email := r.email.getD "",
           phone := r.phone.getD "", businessType := r.businessType.getD "",
           message := r.message.getD "" }

/-- One nodemailer SMTP configuration object, with every field optional as in
the JavaScript object literals. -/
structure SmtpConfig where
  service : Option String
  host : Option String
  port : Option Nat
  secure : Option Bool
  authUser : Option String
  authPass : Option String
  tlsRejectUnauthorized : Option Bool
  connectionTimeout : Option Nat
  greetingTimeout : Option Nat
  socketTimeout : Option Nat
deriving DecidableEq, Repr

/-- First SMTP configuration of the Resend-enabled variant: service gmail with
relaxed TLS and 10 second timeouts (no explicit host, port or secure flag). -/
def smtpConfig1 (env : Env) : SmtpConfig :=
  { service := some "gmail", host := none, port := none, secure := none,
    authUser := env.emailUser, authPass := env.emailPass,
    tlsRejectUnauthorized := some false,
    connectionTimeout := some 10000, greetingTimeout := some 10000,
    socketTimeout := some 10000 }

/-- Second SMTP configuration of the Resend-enabled variant:
smtp.gmail.com port 587, secure false (STARTTLS). -/
def smtpConfig2 (env : Env) : SmtpConfig :=
  { service := none, host := some "smtp.gmail.com", port := some 587,
    secure := some false,
    authUser := env.emailUser, authPass := env.emailPass,
    tlsRejectUnauthorized := some false,
    connectionTimeout := some 10000, greetingTimeout := some 10000,
    socketTimeout := some 10000 }

/-- Third SMTP configuration of the Resend-enabled variant:
smtp.gmail.com port 465, secure true (implicit TLS). -/
def smtpConfig3 (env : Env) : SmtpConfig :=
  { service := none, host := some "smtp.gmail.com", port := some 465,
    secure := some true,
    authUser := env.emailUser, authPass := env.emailPass,
    tlsRejectUnauthorized := some false,
    connectionTimeout := some 10000, greetingTimeout := some 10000,
    socketTimeout := some 10000 }

/-- The smtpConfigs array of the Resend-enabled variant, in source order. -/
def smtpConfigsV2 (env : Env) : List SmtpConfig :=
  [smtpConfig1 env, smtpConfig2 env, smtpConfig3 env]

/-- First SMTP configuration of the first variant: smtp.gmail.com port 465,
secure true (SSL). -/
def v1SmtpConfig1 (env : Env) : SmtpConfig :=
  { service := none, host := some "smtp.gmail.com", port := some 465,
    secure := some true,
    authUser := env.emailUser, authPass := env.emailPass,
    tlsRejectUnauthorized := none,
    connectionTimeout := none, greetingTimeout := none, socketTimeout := none }

/-- Second SMTP configuration of the first variant: smtp.gmail.com port 587,
secure false (STARTTLS). -/
def v1SmtpConfig2 (env : Env) : SmtpConfig :=
  { service := none, host := some "smtp.gmail.com", port := some 587,
    secure := some false,
    authUser := env.emailUser, authPass := env.emailPass,
    tlsRejectUnauthorized := none,
    connectionTimeout := none, greetingTimeout := none, socketTimeout := none }

/-- Third SMTP configuration of the first variant: service gmail on
alternative port 2587. -/
def v1SmtpConfig3 (env : Env) : SmtpConfig :=
  { service := some "gmail", host := none, port := some 2587, secure := none,
    authUser := env.emailUser, authPass := env.emailPass,
    tlsRejectUnauthorized := none,
    connectionTimeout := none, greetingTimeout := none, socketTimeout := none }

/-- The smtpConfigs array of the first variant, in source order. -/
def smtpConfigsV1 (env : Env) : List SmtpConfig :=
  [v1SmtpConfig1 env, v1SmtpConfig2 env, v1SmtpConfig3 env]

/-- An outbound email message as passed to a transport. -/
structure EmailMsg where
  fromAddr : Option String
  toAddr : Option String
  subject : String
  text : String
  html : Option String
deriving DecidableEq, Repr

/-- The plain-text body built by both variants:
Name, Email, Phone, Business Type, then a blank line and the message. -/
def renderText (s : Submission) : String :=
  "Name: " ++ s.name ++ "\nEmail: " ++ s.email ++ "\nPhone: " ++ s.phone ++
    "\nBusiness Type: " ++ s.businessType ++ "\n\nMessage:\n" ++ s.message

/-- Global replacement of newline characters by the br tag, modelling the
JavaScript expression replacing each newline in the message. -/
def escNewlines (s : String) : String :=
  String.join (s.data.map fun c => if c = '\n' then "<br>" else c.toString)

/-- The HTML body template used by the Resend sends, parametrised by the
literal indentation whitespace of the template (the primary and the fallback
call sites differ only in indentation). -/
def renderHtmlWith (ind closeInd : String) (s : Submission) : String :=
  "\n" ++ ind ++ "<h3>New Project Enquiry</h3>\n" ++
    ind ++ "<p><strong>Name:</strong> " ++ s.name ++ "</p>\n" ++
    ind ++ "<p><strong>Email:</strong> " ++ s.email ++ "</p>\n" ++
    ind ++ "<p><strong>Phone:</strong> " ++ s.phone ++ "</p>\n" ++
    ind ++ "<p><strong>Business Type:</strong> " ++ s.businessType ++ "</p>\n" ++
    ind ++ "<h4>Message:</h4>\n" ++
    ind ++ "<p>" ++ escNewlines s.message ++ "</p>\n" ++ closeInd

/-- Indentation of the template lines at the primary Resend call site. -/
def indentPrimary : String := "          "

/-- Indentation before the closing backtick at the primary call site. -/
def closePrimary : String := "        "

/-- Indentation of the template lines at the fallback Resend call site. -/
def indentFallback : String := "                "

/-- Indentation before the closing backtick at the fallback call site. -/
def closeFallback : String := "              "

/-- The fixed subject line used by every send in both variants. -/
def subjectLine : String := "New Project Enquiry from Abvius Portfolio"

/-- The message handed to the Resend API: fixed onboarding sender, recipient
EMAIL_USER, the plain-text body and the HTML body. -/
def resendMsg (env : Env) (s : Submission) (ind closeInd : String) : EmailMsg :=
  { fromAddr := some "onboarding@resend.dev", toAddr := env.emailUser,
    subject := subjectLine, text := renderText s,
    html := some (renderHtmlWith ind closeInd s) }

/-- The mailOptions object handed to every SMTP send: EMAIL_USER as sender and
recipient, the plain-text body, no HTML body. -/
def smtpMsg (env : Env) (s : Submission) : EmailMsg :=
  { fromAddr := env.emailUser, toAddr := env.emailUser,
    subject := subjectLine, text := renderText s, html := none }

/-- Identity of a transport attempt: the Resend API, or the SMTP transport at
a given index of the smtpConfigs array with its configuration. -/
inductive Transport
  | resendApi
  | smtp (index : Nat) (cfg : SmtpConfig)
deriving DecidableEq, Repr

/-- Whether a transport is one of the SMTP configurations. -/
def Transport.isSmtp : Transport → Bool
  | .resendApi => false
  | .smtp _ _ => true

/-- One send invocation actually performed: which transport, the message that
was handed to it, and the outcome the oracle reports for it. -/
structure SendAttempt where
  transport : Transport
  message : EmailMsg
  outcome : Outcome
deriving DecidableEq, Repr

/-- Oracle for the outcomes of the five possible send invocations of the
Resend-enabled handler (each distinct call site may behave differently). -/
structure World where
  resendFirst : Outcome
  smtp1 : Outcome
  smtp2 : Outcome
  smtp3 : Outcome
  resendFallback : Outcome
deriving DecidableEq, Repr

/-- JSON values occurring in the response bodies. The pairs constructor
exists so that a body carrying a list of per-transport (id, reason) pairs is
expressible; no handler of the source ever produces one. -/
inductive JVal
  | str (s : String)
  | jbool (b : Bool)
  | num (n : Nat)
  | pairs (l : List (String × String))
deriving DecidableEq, Repr

/-- Whether a JSON value is a list of string pairs. -/
def JVal.isPairs : JVal → Bool
  | .pairs _ => true
  | _ => false

/-- An HTTP response: status code and JSON object body as an ordered list of
key-value pairs, in the key order of the source object literal. -/
structure HttpResponse where
  status : Nat
  body : List (String × JVal)
deriving DecidableEq, Repr

/-- The 400 response returned when the falsiness guard fires. -/
def badRequestResponse : HttpResponse :=
  { status := 400, body := [("error", JVal.str "Missing required fields")] }

/-- Response of the GET /health endpoint (identical in both variants),
abstracting process.uptime() and Date.now() as parameters. -/
def healthResponse (uptime timestamp : Nat) : HttpResponse :=
  { status := 200,
    body := [("status", JVal.str "ok"), ("uptime", JVal.num uptime),
             ("timestamp", JVal.num timestamp)] }

/-- The 200 body returned by the Resend-enabled variant on a successful send,
depending on which transport succeeded (SMTP success reports configUsed as
the one-based index of the configuration). -/
def successResponseV2 : Transport → HttpResponse
  | .resendApi =>
      { status := 200,
        body := [("success", JVal.jbool true),
                 ("message", JVal.str "Email sent successfully via Resend!"),
                 ("provider", JVal.str "resend")] }
  | .smtp i _ =>
      { status := 200,
        body := [("success", JVal.jbool true),
                 ("message", JVal.str "Email sent successfully!"),
                 ("configUsed", JVal.num (i + 1))] }

/-- The 500 body of the Resend-enabled variant when every attempt failed; the
detail and suggestion strings depend only on whether Resend is configured. -/
def exhaustedResponseV2 (resendConfigured : Bool) : HttpResponse :=
  { status := 500,
    body := [("success", JVal.jbool false),
             ("error", JVal.str "Failed to send email"),
             ("detail", JVal.str (if resendConfigured then
                "Both SMTP and Resend failed on cloud hosting." else
                "SMTP failed and no Resend API key configured.")),
             ("suggestion", JVal.str (if resendConfigured then
                "Try a different cloud email service or check your credentials." else
                "🚀 Quick fix: Get a free Resend API key from resend.com and add RESEND_API_KEY to your environment variables."))] }

/-- The ordered list of send invocations the Resend-enabled handler would
perform if every attempt were reached: Resend first when the API key is
present, then the three SMTP configurations in array order, then the Resend
fallback when the API key is present. -/
def plannedAttempts (env : Env) (s : Submission) (w : World) : List SendAttempt :=
  (if env.resendKey.isSome then
     [{ transport := Transport.resendApi,
        message := resendMsg env s indentPrimary closePrimary,
        outcome := w.resendFirst }]
   else []) ++
  [{ transport := Transport.smtp 0 (smtpConfig1 env),
     message := smtpMsg env s, outcome := w.smtp1 },
   { transport := Transport.smtp 1 (smtpConfig2 env),
     message := smtpMsg env s, outcome := w.smtp2 },
   { transport := Transport.smtp 2 (smtpConfig3 env),
     message := smtpMsg env s, outcome := w.smtp3 }] ++
  (if env.resendKey.isSome then
     [{ transport := Transport.resendApi,
        message := resendMsg env s indentFallback closeFallback,
        outcome := w.resendFallback }]
   else [])

/-- Run planned attempts in order until the first success: returns the
successful attempt (if any) and the trace of the invocations performed.
Attempts after the first success are not performed. -/
def runUntilSuccess : List SendAttempt → Option SendAttempt × List SendAttempt
  | [] => (none, [])
  | a :: rest =>
    match a.outcome with
    | .ok => (some a, [a])
    | .err _ =>
      let r := runUntilSuccess rest
      (r.1, a :: r.2)

/-- The POST /contact handler of the Resend-enabled variant: validate, then
attempt transports in order until one succeeds; return the matching response
and the trace of send invocations. -/
def handleV2 (env : Env) (w : World) (r : ReqBody) : HttpResponse × List SendAttempt :=
  match validate r with
  | none => (badRequestResponse, [])
  | some s =>
    match runUntilSuccess (plannedAttempts env s w) with
    | (some a, trace) => (successResponseV2 a.transport, trace)
    | (none, trace) => (exhaustedResponseV2 env.resendKey.isSome, trace)

/-- The error message thrown inside the loop of the first variant: the
nodemailer module exports createTransport, not createTransporter, so
calling the missing export throws a TypeError with this message. -/
def createTransporterError : String :=
  "nodemailer.createTransporter is not a function"

/-- The 500 body of the first variant when the last loop iteration fails,
carrying the message of the last caught error. -/
def exhaustedResponseV1 (lastError : String) : HttpResponse :=
  { status := 500,
    body := [("error", JVal.str "Failed to send email"),
             ("detail", JVal.str "All SMTP configurations failed. Consider using a cloud email service."),
             ("lastError", JVal.str lastError)] }

/-- The 200 body of the first variant on a successful send. -/
def v1SuccessResponse : HttpResponse :=
  { status := 200, body := [("success", JVal.jbool true)] }

/-- Placeholder for the first variant falling out of its loop without
responding (unreachable: the literal config array is non-empty). -/
def noResponse : HttpResponse := { status := 0, body := [] }

/-- One loop iteration body of the first variant. Modelled from the
nodemailer module API (an external dependency, not part of this repository):
nodemailer.createTransporter is not an exported function, so the transporter
construction throws before sendMail can be invoked, and the catch receives
the TypeError message. A successful send would be the ok case. -/
def v1Attempt (_env : Env) (_s : Submission) (_cfg : SmtpConfig) :
    Except String SendAttempt :=
  Except.error createTransporterError

/-- The config loop of the first variant: on a thrown error, continue with
the next config, or return the 500 body with lastError on the last config;
on a successful send, return the success body. Also returns the trace of
sendMail invocations performed and the list of caught error messages. -/
def v1Run (env : Env) (s : Submission) :
    List SmtpConfig → HttpResponse × List SendAttempt × List String
  | [] => (noResponse, [], [])
  | cfg :: rest =>
    match v1Attempt env s cfg with
    | Except.ok att => (v1SuccessResponse, [att], [])
    | Except.error m =>
      match rest with
      | [] => (exhaustedResponseV1 m, [], [m])
      | c :: cs =>
        let r := v1Run env s (c :: cs)
        (r.1, r.2.1, m :: r.2.2)

/-- The POST /contact handler of the first variant: validate, then run the
loop over the three SMTP configurations. -/
def handleV1 (env : Env) (r : ReqBody) :
    HttpResponse × List SendAttempt × List String :=
  match validate r with
  | none => (badRequestResponse, [], [])
  | some s => v1Run env s (smtpConfigsV1 env)

/-! Helper lemmas about the fallback iteration. -/

/-- The trace of performed invocations is a prefix of the planned list. -/
theorem runUntilSuccess_trace_of_plan (l : List SendAttempt) :
    List.IsPrefix (runUntilSuccess l).2 l := by
  induction l with
  | nil => simp [runUntilSuccess]
  | cons a rest ih =>
    cases h : a.outcome with
    | ok => simp [runUntilSuccess, h]
    | err m =>
      simp only [runUntilSuccess, h]
      exact (List.prefix_cons_inj a).mpr ih

/-- If every planned attempt fails, the run reports no winner and performs
every planned attempt. -/
theorem runUntilSuccess_all_fail (l : List SendAttempt)
    (h : ∀ a ∈ l, a.outcome.isOk = false) :
    runUntilSuccess l = (none, l) := by
  induction l with
  | nil => rfl
  | cons a rest ih =>
    have ha := h a (List.mem_cons_self a rest)
    cases hout : a.outcome with
    | ok => rw [hout] at ha; simp [Outcome.isOk] at ha
    | err m =>
      have := ih (fun b hb => h b (List.mem_cons_of_mem a hb))
      simp [runUntilSuccess, hout, this]

/-- If the run reports no winner, every performed attempt failed and the
whole plan was performed. -/
theorem runUntilSuccess_none (l : List SendAttempt)
    (h : (runUntilSuccess l).1 = none) :
    (runUntilSuccess l).2 = l ∧ ∀ a ∈ l, a.outcome.isOk = false := by
  induction l with
  | nil => simp [runUntilSuccess]
  | cons a rest ih =>
    cases hout : a.outcome with
    | ok => simp [runUntilSuccess, hout] at h
    | err m =>
      simp only [runUntilSuccess, hout] at h ⊢
      obtain ⟨h1, h2⟩ := ih h
      refine ⟨by simp [h1], ?_⟩
      intro b hb
      rcases List.mem_cons.mp hb with hb | hb
      · subst hb; simp [Outcome.isOk, hout]
      · exact h2 b hb

/-- If the run reports a winner, the winner succeeded, the trace is the failed
prefix followed by the winner, and nothing after the winner was performed. -/
theorem runUntilSuccess_some (l : List SendAttempt) (a : SendAttempt)
    (h : (runUntilSuccess l).1 = some a) :
    a.outcome.isOk = true ∧
    ∃ pre, (runUntilSuccess l).2 = pre ++ [a] ∧
      (∀ b ∈ pre, b.outcome.isOk = false) := by
  induction l with
  | nil => simp [runUntilSuccess] at h
  | cons c rest ih =>
    cases hout : c.outcome with
    | ok =>
      simp only [runUntilSuccess, hout] at h
      obtain rfl : c = a := by injection h
      exact ⟨by simp [Outcome.isOk, hout], [], by simp [runUntilSuccess, hout]⟩
    | err m =>
      simp only [runUntilSuccess, hout] at h
      obtain ⟨hok, pre, htr, hpre⟩ := ih h
      refine ⟨hok, c :: pre, ?_, ?_⟩
      · simp [runUntilSuccess, hout, htr]
      · intro b hb
        rcases List.mem_cons.mp hb with hb | hb
        · subst hb; simp [Outcome.isOk, hout]
        · exact hpre b hb

/-- Every attempt in the trace is a planned attempt. -/
theorem runUntilSuccess_mem (l : List SendAttempt) (a : SendAttempt)
    (h : a ∈ (runUntilSuccess l).2) : a ∈ l :=
  (runUntilSuccess_trace_of_plan l).sublist.mem h

/-- Every planned attempt uses the plain-text rendering of the submission,
the fixed subject line, and one of the two HTML templates (or no HTML). -/
theorem plannedAttempts_message (env : Env) (s : Submission) (w : World)
    (a : SendAttempt) (h : a ∈ plannedAttempts env s w) :
    a.message.text = renderText s ∧ a.message.subject = subjectLine ∧
    (a.message.html = none ∨
     a.message.html = some (renderHtmlWith indentPrimary closePrimary s) ∨
     a.message.html = some (renderHtmlWith indentFallback closeFallback s)) := by
  unfold plannedAttempts at h
  by_cases hk : env.resendKey.isSome
  · simp only [hk, if_pos] at h
    simp only [List.mem_append, List.mem_cons, List.mem_singleton,
      List.not_mem_nil, or_false] at h
    rcases h with ((rfl | rfl | rfl | rfl) | rfl) <;>
      simp [resendMsg, smtpMsg]
  · simp only [hk, if_neg, Bool.false_eq_true, not_false_iff] at h
    simp only [List.mem_append, List.mem_cons, List.not_mem_nil, or_false,
      List.append_nil, List.nil_append] at h
    rcases h with rfl | rfl | rfl <;> simp [smtpMsg]

/-- The transports of the planned attempts, in order: Resend when the key is
present, the three SMTP configurations in array order, Resend again when the
key is present. This list does not depend on the oracle or the submission. -/
theorem plannedAttempts_transports (env : Env) (s : Submission) (w : World) :
    (plannedAttempts env s w).map (fun a => a.transport) =
      (if env.resendKey.isSome then [Transport.resendApi] else []) ++
      [Transport.smtp 0 (smtpConfig1 env), Transport.smtp 1 (smtpConfig2 env),
       Transport.smtp 2 (smtpConfig3 env)] ++
      (if env.resendKey.isSome then [Transport.resendApi] else []) := by
  by_cases hk : env.resendKey.isSome <;> simp [plannedAttempts, hk]

/-! Concrete fixtures used by witnesses and counterexamples. -/

/-- Environment with no credentials at all. -/
def envEmpty : Env := { resendKey := none, emailUser := none, emailPass := none }

/-- Environment with a Resend API key and SMTP credentials. -/
def envResend : Env :=
  { resendKey := some "re_key", emailUser := some "owner@example.com",
    emailPass := some "secret" }

/-- A request body with all five fields present and non-empty. -/
def reqOk : ReqBody :=
  { name := some "A", email := some "a@b.com", phone := some "1",
    businessType := some "x", message := some "hi" }

/-- The submission extracted from reqOk. -/
def subOk : Submission :=
  { name := "A", email := "a@b.com", phone := "1", businessType := "x",
    message := "hi" }

/-- Oracle in which every send invocation fails, with distinct reasons. -/
def wAllFail : World :=
  { resendFirst := Outcome.err "e0", smtp1 := Outcome.err "e1",
    smtp2 := Outcome.err "e2", smtp3 := Outcome.err "e3",
    resendFallback := Outcome.err "e4" }

/-- Oracle in which every send invocation fails, with other reasons. -/
def wAllFail2 : World :=
  { resendFirst := Outcome.err "f0", smtp1 := Outcome.err "f1",
    smtp2 := Outcome.err "f2", smtp3 := Outcome.err "f3",
    resendFallback := Outcome.err "f4" }

/-- Oracle in which the first SMTP configuration succeeds. -/
def wSmtp1Ok : World :=
  { resendFirst := Outcome.err "e0", smtp1 := Outcome.ok,
    smtp2 := Outcome.err "e2", smtp3 := Outcome.err "e3",
    resendFallback := Outcome.err "e4" }

/-- The status of every success response of the Resend-enabled variant. -/
theorem successResponseV2_status (t : Transport) :
    (successResponseV2 t).status = 200 := by
  cases t <;> rfl

/-- On a validated request, the trace of the Resend-enabled handler is the
trace of running the planned attempts until the first success. -/
theorem handleV2_trace (env : Env) (w : World) (r : ReqBody) (s : Submission)
    (hv : validate r = some s) :
    (handleV2 env w r).2 = (runUntilSuccess (plannedAttempts env s w)).2 := by
  simp only [handleV2, hv]
  rcases hrun : runUntilSuccess (plannedAttempts env s w) with ⟨winner, trace⟩
  cases winner <;> rfl

/-- If every invocation the Resend-enabled handler performed failed, it
performed the whole plan and answered with the exhausted 500 response. -/
theorem handleV2_exhausted (env : Env) (w : World) (r : ReqBody) (s : Submission)
    (hv : validate r = some s)
    (hfail : ((handleV2 env w r).2.all fun a => !a.outcome.isOk) = true) :
    handleV2 env w r =
      (exhaustedResponseV2 env.resendKey.isSome, plannedAttempts env s w) := by
  have htr := handleV2_trace env w r s hv
  rcases hrun : runUntilSuccess (plannedAttempts env s w) with ⟨winner, trace⟩
  rw [hrun] at htr
  cases winner with
  | some b =>
    exfalso
    obtain ⟨hbok, pre, htr2, hpre⟩ :=
      runUntilSuccess_some (plannedAttempts env s w) b (by rw [hrun])
    rw [hrun] at htr2
    have hbmem : b ∈ (handleV2 env w r).2 := by
      rw [htr, htr2]; simp
    have hb := List.all_eq_true.mp hfail b hbmem
    rw [hbok] at hb
    simp at hb
  | none =>
    obtain ⟨heq, hall⟩ := runUntilSuccess_none (plannedAttempts env s w) (by rw [hrun])
    rw [hrun] at heq
    simp only at heq
    simp only [handleV2, hv]
    rw [hrun, heq]

/-! Claim theorems. -/

/-- C1: for every POST /contact request in which any one of the five fields
name, email, phone, businessType, message is missing or empty (falsy), both
handler variants return HTTP 400 with body error: Missing required fields and
perform zero transport send invocations (neither Resend nor any SMTP
transport). -/
theorem contact_missing_field_returns_400_no_send
    (env : Env) (w : World) (r : ReqBody)
    (h : falsy r.name = true ∨ falsy r.email = true ∨ falsy r.phone = true ∨
         falsy r.businessType = true ∨ falsy r.message = true) :
    handleV2 env w r = (badRequestResponse, []) ∧
    handleV1 env r = (badRequestResponse, [], []) ∧
    badRequestResponse.status = 400 ∧
    badRequestResponse.body = [("error", JVal.str "Missing required fields")] := by
  have hv : validate r = none := by
    unfold validate
    rcases h with h | h | h | h | h <;> simp [h]
  exact ⟨by simp [handleV2, hv], by simp [handleV1, hv], rfl, rfl⟩

/-- The reqOk fixture with its name field removed. -/
def reqMissingName : ReqBody := { reqOk with name := none }

/-- Witness for C1: the concrete request missing the name field receives 400
with no sends from both variants. -/
theorem contact_missing_field_returns_400_no_send_witness :
    handleV2 envEmpty wAllFail reqMissingName = (badRequestResponse, []) ∧
    handleV1 envEmpty reqMissingName = (badRequestResponse, [], []) ∧
    badRequestResponse.status = 400 ∧
    badRequestResponse.body = [("error", JVal.str "Missing required fields")] :=
  contact_missing_field_returns_400_no_send envEmpty wAllFail reqMissingName
    (Or.inl (by decide))

/-- C8 counterexample: the GET /health body (here at uptime 7, timestamp
1700) has keys status, uptime and timestamp only; it carries no emailReady
field, contradicting the claimed field set. -/
theorem health_no_email_ready_cex :
    (healthResponse 7 1700).status = 200 ∧
    (healthResponse 7 1700).body.map Prod.fst = ["status", "uptime", "timestamp"] ∧
    (((healthResponse 7 1700).body.map Prod.fst).contains "emailReady") = false := by
  decide

/-- C8 amended: GET /health always returns HTTP 200 with a body holding
exactly the fields status (value ok), uptime and timestamp; there is no
emailReady field, whatever the transport credentials are (the handler reads
no environment state). -/
theorem health_body_fields_amended (uptime timestamp : Nat) :
    (healthResponse uptime timestamp).status = 200 ∧
    (healthResponse uptime timestamp).body.map Prod.fst =
      ["status", "uptime", "timestamp"] ∧
    (("status", JVal.str "ok") ∈ (healthResponse uptime timestamp).body) ∧
    (("uptime", JVal.num uptime) ∈ (healthResponse uptime timestamp).body) ∧
    (("timestamp", JVal.num timestamp) ∈ (healthResponse uptime timestamp).body) ∧
    (((healthResponse uptime timestamp).body.map Prod.fst).contains "emailReady") = false := by
  refine ⟨rfl, rfl, ?_, ?_, ?_, rfl⟩ <;> simp [healthResponse]

/-- Witness for the amended C8 at concrete uptime and timestamp values. -/
theorem health_body_fields_amended_witness :
    (healthResponse 3 9).status = 200 ∧
    (healthResponse 3 9).body.map Prod.fst = ["status", "uptime", "timestamp"] ∧
    (("status", JVal.str "ok") ∈ (healthResponse 3 9).body) ∧
    (("uptime", JVal.num 3) ∈ (healthResponse 3 9).body) ∧
    (("timestamp", JVal.num 9) ∈ (healthResponse 3 9).body) ∧
    (((healthResponse 3 9).body.map Prod.fst).contains "emailReady") = false :=
  health_body_fields_amended 3 9

/-- C10: in the first server variant every loop iteration calls the
nonexistent export nodemailer.createTransporter and throws before any
sendMail, so every validated submission receives HTTP 500 with the thrown
message as lastError, zero sendMail invocations are performed, and each of
the three iterations caught that same TypeError message. -/
theorem v1_create_transporter_typo_500
    (env : Env) (r : ReqBody) (s : Submission) (hv : validate r = some s) :
    (handleV1 env r).1 = exhaustedResponseV1 createTransporterError ∧
    (handleV1 env r).1.status = 500 ∧
    (handleV1 env r).2.1 = [] ∧
    (handleV1 env r).2.2 =
      [createTransporterError, createTransporterError, createTransporterError] ∧
    (("lastError", JVal.str createTransporterError) ∈ (handleV1 env r).1.body) := by
  have h : handleV1 env r =
      (exhaustedResponseV1 createTransporterError, [],
       [createTransporterError, createTransporterError, createTransporterError]) := by
    simp only [handleV1, hv]
    rfl
  rw [h]
  exact ⟨rfl, rfl, rfl, rfl, by simp [exhaustedResponseV1]⟩

/-- Witness for C10 at the concrete valid request and empty environment. -/
theorem v1_create_transporter_typo_500_witness :
    (handleV1 envEmpty reqOk).1 = exhaustedResponseV1 createTransporterError ∧
    (handleV1 envEmpty reqOk).1.status = 500 ∧
    (handleV1 envEmpty reqOk).2.1 = [] ∧
    (handleV1 envEmpty reqOk).2.2 =
      [createTransporterError, createTransporterError, createTransporterError] ∧
    (("lastError", JVal.str createTransporterError) ∈ (handleV1 envEmpty reqOk).1.body) :=
  v1_create_transporter_typo_500 envEmpty reqOk subOk (by decide)

/-- C3: on a validated submission, if some performed send invocation
succeeded then the Resend-enabled handler answered HTTP 200, the successful
attempt is the last invocation performed, and every earlier invocation
failed — no transport later in the order is invoked after the success. -/
theorem first_success_stops_iteration
    (env : Env) (w : World) (r : ReqBody) (s : Submission) (a : SendAttempt)
    (hv : validate r = some s)
    (ha : a ∈ (handleV2 env w r).2) (hok : a.outcome = Outcome.ok) :
    (handleV2 env w r).1.status = 200 ∧
    (handleV2 env w r).2.getLast? = some a ∧
    ((handleV2 env w r).2.dropLast.all fun b => !b.outcome.isOk) = true := by
  have htr := handleV2_trace env w r s hv
  rcases hrun : runUntilSuccess (plannedAttempts env s w) with ⟨winner, trace⟩
  rw [hrun] at htr
  simp only at htr
  cases winner with
  | none =>
    exfalso
    obtain ⟨heq, hall⟩ := runUntilSuccess_none (plannedAttempts env s w) (by rw [hrun])
    rw [hrun] at heq
    simp only at heq
    rw [htr, heq] at ha
    have hfa := hall a ha
    rw [hok] at hfa
    simp [Outcome.isOk] at hfa
  | some b =>
    obtain ⟨hbok, pre, htr2, hpre⟩ :=
      runUntilSuccess_some (plannedAttempts env s w) b (by rw [hrun])
    rw [hrun] at htr2
    simp only at htr2
    have hres : (handleV2 env w r).1 = successResponseV2 b.transport := by
      simp only [handleV2, hv]
      rw [hrun]
    have hab : a = b := by
      rw [htr, htr2] at ha
      rcases List.mem_append.mp ha with h | h
      · exfalso
        have hfa := hpre a h
        rw [hok] at hfa
        simp [Outcome.isOk] at hfa
      · simpa using h
    subst hab
    refine ⟨?_, ?_, ?_⟩
    · rw [hres]; exact successResponseV2_status _
    · rw [htr, htr2]; simp
    · rw [htr, htr2, List.dropLast_concat]
      exact List.all_eq_true.mpr fun b hb => by simp [hpre b hb]

/-- The successful SMTP attempt performed in the wSmtp1Ok fixture run. -/
def attSmtp1Ok : SendAttempt :=
  { transport := Transport.smtp 0 (smtpConfig1 envEmpty),
    message := smtpMsg envEmpty subOk, outcome := Outcome.ok }

/-- Witness for C3: with the first SMTP configuration set to succeed, the
run answers 200 and the successful attempt closes the trace. -/
theorem first_success_stops_iteration_witness :
    validate reqOk = some subOk ∧
    attSmtp1Ok ∈ (handleV2 envEmpty wSmtp1Ok reqOk).2 ∧
    attSmtp1Ok.outcome = Outcome.ok ∧
    ((handleV2 envEmpty wSmtp1Ok reqOk).1.status = 200 ∧
     (handleV2 envEmpty wSmtp1Ok reqOk).2.getLast? = some attSmtp1Ok ∧
     ((handleV2 envEmpty wSmtp1Ok reqOk).2.dropLast.all fun b => !b.outcome.isOk) = true) :=
  ⟨by decide, by decide, rfl,
   first_success_stops_iteration envEmpty wSmtp1Ok reqOk subOk attSmtp1Ok
     (by decide) (by decide) rfl⟩

/-- C9: every send invocation performed on a validated submission carries the
plain-text body rendered by the fixed template (Name, Email, Phone, Business
Type, blank line, Message) and the fixed subject; when an HTML body is
present it is the fixed HTML template interpolating name, email, phone and
businessType unescaped, with every newline of the message replaced by a br
tag (the primary and fallback Resend call sites differ only in the literal
indentation whitespace of the template). -/
theorem message_rendering_content
    (env : Env) (w : World) (r : ReqBody) (s : Submission)
    (hv : validate r = some s) (a : SendAttempt)
    (ha : a ∈ (handleV2 env w r).2) :
    a.message.text = renderText s ∧ a.message.subject = subjectLine ∧
    (a.message.html = none ∨
     a.message.html = some (renderHtmlWith indentPrimary closePrimary s) ∨
     a.message.html = some (renderHtmlWith indentFallback closeFallback s)) := by
  have htr := handleV2_trace env w r s hv
  rw [htr] at ha
  exact plannedAttempts_message env s w a (runUntilSuccess_mem _ a ha)

/-- The failed primary Resend attempt performed in the envResend, wAllFail
fixture run. -/
def attResendPrimary : SendAttempt :=
  { transport := Transport.resendApi,
    message := resendMsg envResend subOk indentPrimary closePrimary,
    outcome := Outcome.err "e0" }

set_option maxRecDepth 10000 in
/-- Witness for C9 at the primary Resend attempt of a concrete run. -/
theorem message_rendering_content_witness :
    validate reqOk = some subOk ∧
    attResendPrimary ∈ (handleV2 envResend wAllFail reqOk).2 ∧
    (attResendPrimary.message.text = renderText subOk ∧
     attResendPrimary.message.subject = subjectLine ∧
     (attResendPrimary.message.html = none ∨
      attResendPrimary.message.html =
        some (renderHtmlWith indentPrimary closePrimary subOk) ∨
      attResendPrimary.message.html =
        some (renderHtmlWith indentFallback closeFallback subOk))) :=
  ⟨by decide, by decide,
   message_rendering_content envResend wAllFail reqOk subOk (by decide)
     attResendPrimary (by decide)⟩

/-- C2 counterexample: with zero transport credentials configured (no Resend
key, no SMTP user or password), the Resend-enabled handler still performs
three SMTP send invocations — not zero — before answering 500, so an
uncredentialed SMTP transport is attempted rather than skipped. -/
theorem uncredentialed_smtp_still_attempted_cex :
    envEmpty.resendKey = none ∧ envEmpty.emailUser = none ∧
    envEmpty.emailPass = none ∧
    (handleV2 envEmpty wAllFail reqOk).2.length = 3 ∧
    ((handleV2 envEmpty wAllFail reqOk).2.map fun a => a.transport) =
      [Transport.smtp 0 (smtpConfig1 envEmpty),
       Transport.smtp 1 (smtpConfig2 envEmpty),
       Transport.smtp 2 (smtpConfig3 envEmpty)] ∧
    (handleV2 envEmpty wAllFail reqOk).1.status = 500 := by
  decide

/-- C2 amended: only the Resend transport is credential-gated — when the API
key is absent it is never invoked; the SMTP transports are attempted
regardless of whether EMAIL_USER and EMAIL_PASS are set. With no Resend key
and every SMTP attempt failing, the handler performs exactly the three SMTP
invocations in order and then returns the 500 response whose detail states
that SMTP failed and no Resend API key is configured. -/
theorem resend_skipped_smtp_attempted_amended
    (env : Env) (w : World) (r : ReqBody) (s : Submission)
    (hv : validate r = some s) (hk : env.resendKey = none)
    (h1 : w.smtp1.isOk = false) (h2 : w.smtp2.isOk = false)
    (h3 : w.smtp3.isOk = false) :
    ((handleV2 env w r).2.map fun a => a.transport) =
      [Transport.smtp 0 (smtpConfig1 env), Transport.smtp 1 (smtpConfig2 env),
       Transport.smtp 2 (smtpConfig3 env)] ∧
    (handleV2 env w r).1 = exhaustedResponseV2 false ∧
    (("detail", JVal.str "SMTP failed and no Resend API key configured.") ∈
      (handleV2 env w r).1.body) := by
  have hks : env.resendKey.isSome = false := by rw [hk]; rfl
  have hplan : plannedAttempts env s w =
      [{ transport := Transport.smtp 0 (smtpConfig1 env),
         message := smtpMsg env s, outcome := w.smtp1 },
       { transport := Transport.smtp 1 (smtpConfig2 env),
         message := smtpMsg env s, outcome := w.smtp2 },
       { transport := Transport.smtp 2 (smtpConfig3 env),
         message := smtpMsg env s, outcome := w.smtp3 }] := by
    simp [plannedAttempts, hks]
  have hall : ∀ a ∈ plannedAttempts env s w, a.outcome.isOk = false := by
    rw [hplan]
    intro a ha
    rcases List.mem_cons.mp ha with rfl | ha
    · exact h1
    rcases List.mem_cons.mp ha with rfl | ha
    · exact h2
    rcases List.mem_cons.mp ha with rfl | ha
    · exact h3
    · simp at ha
  have hrun := runUntilSuccess_all_fail (plannedAttempts env s w) hall
  have hh : handleV2 env w r = (exhaustedResponseV2 false, plannedAttempts env s w) := by
    simp only [handleV2, hv]
    rw [hrun, hks]
  rw [hh, hplan]
  exact ⟨rfl, rfl, by simp [exhaustedResponseV2]⟩

/-- Witness for the amended C2 at the credential-free environment. -/
theorem resend_skipped_smtp_attempted_amended_witness :
    validate reqOk = some subOk ∧ envEmpty.resendKey = none ∧
    (((handleV2 envEmpty wAllFail reqOk).2.map fun a => a.transport) =
      [Transport.smtp 0 (smtpConfig1 envEmpty),
       Transport.smtp 1 (smtpConfig2 envEmpty),
       Transport.smtp 2 (smtpConfig3 envEmpty)] ∧
     (handleV2 envEmpty wAllFail reqOk).1 = exhaustedResponseV2 false ∧
     (("detail", JVal.str "SMTP failed and no Resend API key configured.") ∈
       (handleV2 envEmpty wAllFail reqOk).1.body)) :=
  ⟨by decide, rfl,
   resend_skipped_smtp_attempted_amended envEmpty wAllFail reqOk subOk
     (by decide) rfl rfl rfl rfl⟩

/-- C4 counterexample: with all attempts failing for distinct reasons e1, e2,
e3 the 500 body is the generic object with keys success, error, detail,
suggestion; no value is a list of (transportId, reason) pairs, and the body
is identical to the one produced when the reasons are f1, f2, f3 instead, so
it cannot carry the per-transport reasons. -/
theorem exhausted_body_carries_no_reason_list_cex :
    (handleV2 envEmpty wAllFail reqOk).1.status = 500 ∧
    (handleV2 envEmpty wAllFail reqOk).1 = (handleV2 envEmpty wAllFail2 reqOk).1 ∧
    ((handleV2 envEmpty wAllFail reqOk).1.body.map Prod.fst) =
      ["success", "error", "detail", "suggestion"] ∧
    ((handleV2 envEmpty wAllFail reqOk).1.body.all fun kv => !kv.2.isPairs) = true := by
  decide

/-- C4 amended: when every performed attempt fails, the Resend-enabled
handler returns 500 with the fixed generic body (success, error, detail,
suggestion — the latter two depending only on whether Resend is configured),
having attempted each configured transport in order (Resend twice when
configured); the body carries no list of (transportId, reason) pairs. -/
theorem exhausted_returns_generic_500_amended
    (env : Env) (w : World) (r : ReqBody) (s : Submission)
    (hv : validate r = some s)
    (hfail : ((handleV2 env w r).2.all fun a => !a.outcome.isOk) = true) :
    (handleV2 env w r).1 = exhaustedResponseV2 env.resendKey.isSome ∧
    ((handleV2 env w r).2.map fun a => a.transport) =
      (if env.resendKey.isSome then [Transport.resendApi] else []) ++
      [Transport.smtp 0 (smtpConfig1 env), Transport.smtp 1 (smtpConfig2 env),
       Transport.smtp 2 (smtpConfig3 env)] ++
      (if env.resendKey.isSome then [Transport.resendApi] else []) ∧
    ((handleV2 env w r).1.body.all fun kv => !kv.2.isPairs) = true := by
  have hh := handleV2_exhausted env w r s hv hfail
  rw [hh]
  refine ⟨rfl, plannedAttempts_transports env s w, ?_⟩
  cases hks : env.resendKey.isSome <;> rfl

/-- Witness for the amended C4 with Resend configured and all five possible
invocations failing. -/
theorem exhausted_returns_generic_500_amended_witness :
    validate reqOk = some subOk ∧
    ((handleV2 envResend wAllFail reqOk).2.all fun a => !a.outcome.isOk) = true ∧
    ((handleV2 envResend wAllFail reqOk).1 =
       exhaustedResponseV2 envResend.resendKey.isSome ∧
     ((handleV2 envResend wAllFail reqOk).2.map fun a => a.transport) =
       (if envResend.resendKey.isSome then [Transport.resendApi] else []) ++
       [Transport.smtp 0 (smtpConfig1 envResend),
        Transport.smtp 1 (smtpConfig2 envResend),
        Transport.smtp 2 (smtpConfig3 envResend)] ++
       (if envResend.resendKey.isSome then [Transport.resendApi] else []) ∧
     ((handleV2 envResend wAllFail reqOk).1.body.all fun kv => !kv.2.isPairs) = true) :=
  ⟨by decide, by decide,
   exhausted_returns_generic_500_amended envResend wAllFail reqOk subOk
     (by decide) (by decide)⟩

/-- Whether a transport is the Resend API transport. -/
def Transport.isResendApi : Transport → Bool
  | .resendApi => true
  | .smtp _ _ => false

/-- C5 counterexample: in the Resend-enabled variant the first connection
configuration attempted is the legacy service-default one (service gmail, no
port, no secure flag) and the implicit-TLS-on-465 configuration is attempted
last, not first — the reverse of the claimed connection order. -/
theorem smtp_order_service_first_cex :
    ((smtpConfigsV2 envEmpty).map fun c => (c.service, c.port, c.secure)) =
      [(some "gmail", none, none), (none, some 587, some false),
       (none, some 465, some true)] ∧
    (((smtpConfigsV2 envEmpty).map fun c => c.port) ==
      [some 465, some 587, none]) = false ∧
    ((handleV2 envEmpty wAllFail reqOk).2.map fun a => a.transport) =
      [Transport.smtp 0 (smtpConfig1 envEmpty),
       Transport.smtp 1 (smtpConfig2 envEmpty),
       Transport.smtp 2 (smtpConfig3 envEmpty)] ∧
    (smtpConfig1 envEmpty).service = some "gmail" ∧
    (smtpConfig1 envEmpty).port = none := by
  decide

/-- C5 amended: transports are attempted in a fixed order that is never
reordered at runtime — the Resend transport first when its key is present,
then the connection-based configurations in array order, then Resend again;
in the Resend-enabled variant that array order is legacy-service-default,
then upgrade-TLS-on-587, then implicit-TLS-on-465, while the first variant
uses 465, then 587, then service-default on port 2587. -/
theorem fixed_transport_order_amended
    (env : Env) (w : World) (r : ReqBody) (s : Submission)
    (hv : validate r = some s) :
    List.IsPrefix
      ((handleV2 env w r).2.map fun a => a.transport)
      ((if env.resendKey.isSome then [Transport.resendApi] else []) ++
       [Transport.smtp 0 (smtpConfig1 env), Transport.smtp 1 (smtpConfig2 env),
        Transport.smtp 2 (smtpConfig3 env)] ++
       (if env.resendKey.isSome then [Transport.resendApi] else [])) ∧
    ((smtpConfigsV2 env).map fun c => (c.service, c.port, c.secure)) =
      [(some "gmail", none, none), (none, some 587, some false),
       (none, some 465, some true)] ∧
    ((smtpConfigsV1 env).map fun c => (c.service, c.port, c.secure)) =
      [(none, some 465, some true), (none, some 587, some false),
       (some "gmail", some 2587, none)] := by
  refine ⟨?_, rfl, rfl⟩
  have htr := handleV2_trace env w r s hv
  rw [htr, ← plannedAttempts_transports env s w]
  exact (runUntilSuccess_trace_of_plan (plannedAttempts env s w)).map _

/-- Witness for the amended C5 at a concrete configured run. -/
theorem fixed_transport_order_amended_witness :
    validate reqOk = some subOk ∧
    (List.IsPrefix
      ((handleV2 envResend wAllFail reqOk).2.map fun a => a.transport)
      ((if envResend.resendKey.isSome then [Transport.resendApi] else []) ++
       [Transport.smtp 0 (smtpConfig1 envResend),
        Transport.smtp 1 (smtpConfig2 envResend),
        Transport.smtp 2 (smtpConfig3 envResend)] ++
       (if envResend.resendKey.isSome then [Transport.resendApi] else [])) ∧
     ((smtpConfigsV2 envResend).map fun c => (c.service, c.port, c.secure)) =
       [(some "gmail", none, none), (none, some 587, some false),
        (none, some 465, some true)] ∧
     ((smtpConfigsV1 envResend).map fun c => (c.service, c.port, c.secure)) =
       [(none, some 465, some true), (none, some 587, some false),
        (some "gmail", some 2587, none)]) :=
  ⟨by decide,
   fixed_transport_order_amended envResend wAllFail reqOk subOk (by decide)⟩

/-- C6 counterexample: with Resend configured and every attempt failing, the
Resend transport is invoked twice within the same request — once before the
SMTP configurations and once more after their exhaustion — so it is not
attempted at most once. -/
theorem resend_attempted_twice_cex :
    envResend.resendKey.isSome = true ∧
    ((handleV2 envResend wAllFail reqOk).2.map fun a => a.transport) =
      [Transport.resendApi, Transport.smtp 0 (smtpConfig1 envResend),
       Transport.smtp 1 (smtpConfig2 envResend),
       Transport.smtp 2 (smtpConfig3 envResend), Transport.resendApi] ∧
    ((handleV2 envResend wAllFail reqOk).2.countP fun a =>
      Transport.isResendApi a.transport) = 2 := by
  decide

/-- C6 amended: each SMTP configuration is attempted at most once per request
(the SMTP transports occurring in the trace are pairwise distinct) and the
Resend transport at most twice: the after-exhaustion fallback retry is
performed even though Resend was already tried first, so with Resend
configured and every attempt failing it is invoked exactly twice. -/
theorem attempt_multiplicity_amended
    (env : Env) (w : World) (r : ReqBody) (s : Submission)
    (hv : validate r = some s) :
    (((handleV2 env w r).2.map fun a => a.transport).filter Transport.isSmtp).Nodup ∧
    ((handleV2 env w r).2.countP fun a => Transport.isResendApi a.transport) ≤ 2 ∧
    (env.resendKey.isSome = true →
      ((handleV2 env w r).2.all fun a => !a.outcome.isOk) = true →
      ((handleV2 env w r).2.countP fun a => Transport.isResendApi a.transport) = 2) := by
  have htr := handleV2_trace env w r s hv
  have hpre : List.IsPrefix ((handleV2 env w r).2) (plannedAttempts env s w) := by
    rw [htr]; exact runUntilSuccess_trace_of_plan _
  have hsub := hpre.sublist
  have hplanCount :
      ((plannedAttempts env s w).countP fun a => Transport.isResendApi a.transport) =
        (if env.resendKey.isSome then 2 else 0) := by
    unfold plannedAttempts
    cases env.resendKey.isSome <;> rfl
  refine ⟨?_, ?_, ?_⟩
  · have hplan :
        (((plannedAttempts env s w).map fun a => a.transport).filter Transport.isSmtp) =
          [Transport.smtp 0 (smtpConfig1 env), Transport.smtp 1 (smtpConfig2 env),
           Transport.smtp 2 (smtpConfig3 env)] := by
      rw [plannedAttempts_transports]
      cases env.resendKey.isSome <;> rfl
    have hnodup :
        ((((plannedAttempts env s w).map fun a => a.transport).filter Transport.isSmtp)).Nodup := by
      rw [hplan]
      simp
    exact hnodup.sublist ((hsub.map _).filter _)
  · calc ((handleV2 env w r).2.countP fun a => Transport.isResendApi a.transport)
        ≤ ((plannedAttempts env s w).countP fun a => Transport.isResendApi a.transport) :=
          hsub.countP_le _
      _ ≤ 2 := by rw [hplanCount]; cases env.resendKey.isSome <;> simp
  · intro hk hfail
    have hh := handleV2_exhausted env w r s hv hfail
    rw [hh]
    simp only
    rw [hplanCount, hk]
    rfl

/-- Witness for the amended C6 at a concrete configured run in which every
invocation fails. -/
theorem attempt_multiplicity_amended_witness :
    validate reqOk = some subOk ∧
    ((((handleV2 envResend wAllFail reqOk).2.map fun a => a.transport).filter
        Transport.isSmtp).Nodup ∧
     ((handleV2 envResend wAllFail reqOk).2.countP fun a =>
        Transport.isResendApi a.transport) ≤ 2 ∧
     (envResend.resendKey.isSome = true →
       ((handleV2 envResend wAllFail reqOk).2.all fun a => !a.outcome.isOk) = true →
       ((handleV2 envResend wAllFail reqOk).2.countP fun a =>
          Transport.isResendApi a.transport) = 2)) :=
  ⟨by decide,
   attempt_multiplicity_amended envResend wAllFail reqOk subOk (by decide)⟩

/-- C7 counterexample: the 500 body of the first variant includes a lastError
field whose value is exactly the error message caught in the final loop
iteration, so per-attempt error detail does reach the caller instead of only
a generic failure summary with a remediation suggestion. -/
theorem v1_body_exposes_last_error_cex :
    (handleV1 envEmpty reqOk).1.status = 500 ∧
    (("lastError", JVal.str createTransporterError) ∈
      (handleV1 envEmpty reqOk).1.body) ∧
    (handleV1 envEmpty reqOk).2.2.getLast? = some createTransporterError ∧
    (((handleV1 envEmpty reqOk).1.body.map Prod.fst).contains "suggestion") = false := by
  decide

/-- C7 amended: in the Resend-enabled variant the exhausted 500 body depends
only on whether Resend is configured — two runs differing only in the
failure reasons of the transports produce the identical body, whose keys are
exactly success, error, detail and suggestion; the body of the first variant
additionally exposes lastError, the message of the error caught in the final
attempt. -/
theorem exhausted_body_noninterference_amended
    (env : Env) (r : ReqBody) (s : Submission) (hv : validate r = some s)
    (w1 w2 : World)
    (h1 : ((handleV2 env w1 r).2.all fun a => !a.outcome.isOk) = true)
    (h2 : ((handleV2 env w2 r).2.all fun a => !a.outcome.isOk) = true) :
    (handleV2 env w1 r).1 = (handleV2 env w2 r).1 ∧
    (handleV2 env w1 r).1.status = 500 ∧
    (handleV2 env w1 r).1.body.map Prod.fst =
      ["success", "error", "detail", "suggestion"] := by
  have e1 := handleV2_exhausted env w1 r s hv h1
  have e2 := handleV2_exhausted env w2 r s hv h2
  rw [e1, e2]
  exact ⟨rfl, rfl, rfl⟩

/-- Witness for the amended C7: two concrete exhausted runs with different
failure reasons receive the same 500 body. -/
theorem exhausted_body_noninterference_amended_witness :
    validate reqOk = some subOk ∧
    ((handleV2 envResend wAllFail reqOk).2.all fun a => !a.outcome.isOk) = true ∧
    ((handleV2 envResend wAllFail2 reqOk).2.all fun a => !a.outcome.isOk) = true ∧
    ((handleV2 envResend wAllFail reqOk).1 = (handleV2 envResend wAllFail2 reqOk).1 ∧
     (handleV2 envResend wAllFail reqOk).1.status = 500 ∧
     (handleV2 envResend wAllFail reqOk).1.body.map Prod.fst =
       ["success", "error", "detail", "suggestion"]) :=
  ⟨by decide, by decide, by decide,
   exhausted_body_noninterference_amended envResend reqOk subOk (by decide)
     wAllFail wAllFail2 (by decide) (by decide)⟩
